import Mathlib

/-!
Verification of the snapshot storage layer of `snapshot_service`
(`src/snapshot_service/storage.py`, `reader.py`, `writer.py`).

Modelling conventions (shallow embedding):
* String URIs that the Python code builds with f-strings or `_join_uri`
  and then converts to local paths are modelled as segment lists
  (`List String`); joining a folder URI with a child name corresponds to
  appending the segment.  The string-level URI functions of `storage.py`
  (`_join_uri`, `snapshot_root`, `snapshot_uri`, `object_uri`) and of
  `reader.py` (`_coerce_base`) are additionally embedded literally as
  functions on `String`, because some claims are about separator handling.
* A pandas `DataFrame` is modelled as a structure `Df` of column names and
  rows; parquet (de)serialisation is modelled as the identity on `Df`
  (the spec's phrase "up to the columnar format's type fidelity").
* The local-filesystem backend is modelled by `FS`: a map from segment
  paths to file contents plus a list of directories created by `mkdir`;
  a path is a directory when it was created by `mkdir(parents=True)`
  (which also creates all ancestors) or when it is a proper ancestor of
  an existing file.  Only the local branch of each Python function is
  embedded; the s3 branch performs the same sequence of operations
  against the same key layout.
-/

/-- A tabular payload: pandas DataFrame, abstracted to named columns and
rows of string-modelled cell values. -/
structure Df where
  cols : List String
  rows : List (List String)
deriving DecidableEq

/-- Contents of a stored object: a parquet-serialised payload or a small
UTF-8 text object (manifest, marker).  Parquet encoding is modelled as the
identity on `Df`. -/
inductive Content where
  | parquet (df : Df)
  | text (s : String)
deriving DecidableEq

/-- The storage backend state: files (segment path to content) and the
directories explicitly created by `mkdir`. -/
structure FS where
  files : List (List String × Content)
  dirs : List (List String)
deriving DecidableEq

def FS.empty : FS := ⟨[], []⟩

/-- Lookup of a path in a file association list. -/
def lookupFileList (p : List String) :
    List (List String × Content) → Option Content
  | [] => none
  | e :: rest => if e.1 = p then some e.2 else lookupFileList p rest

/-- Lookup of the content stored at a path. -/
def findFile (fs : FS) (p : List String) : Option Content :=
  lookupFileList p fs.files

/-- Store content at a path, replacing any previous content there
(Python `write_text` / `put_object` / `Path.replace` overwrite). -/
def setFile (fs : FS) (p : List String) (c : Content) : FS :=
  { fs with files := (p, c) :: fs.files.filter (fun e => ¬ e.1 = p) }

/-- Delete the object at a path. -/
def removeFile (fs : FS) (p : List String) : FS :=
  { fs with files := fs.files.filter (fun e => ¬ e.1 = p) }

/-- Python `Path.mkdir(parents=True, exist_ok=True)`: record the created
directory; ancestors are implied by `isDirAt` being ancestor-closed. -/
def mkdirp (fs : FS) (p : List String) : FS :=
  { fs with dirs := p :: fs.dirs }

/-- Bool test: `p` equals `q` or is an ancestor of `q` (segment prefix). -/
def pathLeq : List String → List String → Bool
  | [], _ => true
  | _ :: _, [] => false
  | a :: as, b :: bs => a = b && pathLeq as bs

/-- A path is a directory when some created directory lies at or below it,
or some file lies strictly below it. -/
def isDirAt (fs : FS) (p : List String) : Bool :=
  fs.dirs.any (fun q => pathLeq p q) ||
  fs.files.any (fun e => pathLeq p e.1 && decide (p.length < e.1.length))

def fileExistsAt (fs : FS) (p : List String) : Bool :=
  (findFile fs p).isSome

/-- Python `Path.exists()`: true for files and directories. -/
def existsAt (fs : FS) (p : List String) : Bool :=
  fileExistsAt fs p || isDirAt fs p

/-- Python `tmp_path.replace(final_path)`: atomic rename.  The writer only
calls it with the source present; a missing source (which would raise in
Python) leaves the state unchanged here. -/
def renameFile (src dst : List String) (fs : FS) : FS :=
  match findFile fs src with
  | some c => setFile (removeFile fs src) dst c
  | none => fs

-- ---------------------------------------------------------------------------
-- storage.py
-- ---------------------------------------------------------------------------

/-- storage._last_segment_from_uri: final path segment of a folder
location (the date folder name). -/
def lastSegment (p : List String) : String :=
  (p.getLast?).getD ""

/-- storage.write_text (local branch): create the folder, then write the
small text object directly into it. -/
def write_text (folder : List String) (name : String) (content : String)
    (fs : FS) : FS :=
  setFile (mkdirp fs folder) (folder ++ [name]) (.text content)

/-- storage.has_success_marker: true when the object "__SUCCESS" exists in
the folder. -/
def has_success_marker (fs : FS) (folder : List String) : Bool :=
  existsAt fs (folder ++ ["__SUCCESS"])

/-- The default payload file name of storage.write_parquet_atomic:
the folder's date segment with extension ".parquet". -/
def defaultParquetName (folder : List String) : String :=
  lastSegment folder ++ ".parquet"

/-- First half of storage.write_parquet_atomic (local branch): create
folder/tmp (and hence the partition folder itself), then serialise the
payload to the temporary object folder/tmp/filename. -/
def stageTmp (df : Df) (folder : List String) (filename : String)
    (fs : FS) : FS :=
  setFile (mkdirp fs (folder ++ ["tmp"])) (folder ++ ["tmp", filename])
    (.parquet df)

/-- Second half of storage.write_parquet_atomic: promote the temporary
object to the final name by an atomic rename. -/
def promoteTmp (folder : List String) (filename : String) (fs : FS) : FS :=
  renameFile (folder ++ ["tmp", filename]) (folder ++ [filename]) fs

/-- storage.write_parquet_atomic (local branch): default the file name to
the folder's date segment, stage to tmp, then promote. -/
def write_parquet_atomic (df : Df) (folder : List String)
    (filenameOpt : Option String) (fs : FS) : FS :=
  let filename :=
    match filenameOpt with
    | some f => f
    | none => defaultParquetName folder
  promoteTmp folder filename (stageTmp df folder filename fs)

-- ---------------------------------------------------------------------------
-- reader.py: date patterns
-- ---------------------------------------------------------------------------

def isDigitAt (cs : List Char) (i : Nat) : Bool :=
  match cs.get? i with
  | some c => c.isDigit
  | none => false

def isCharAt (cs : List Char) (i : Nat) (c : Char) : Bool :=
  cs.get? i = some c

/-- The anchored pattern of reader.DATE_DIR_RE: ten characters, digits in
the date positions, hyphens at indices 4 and 7. -/
def isDateChars (cs : List Char) : Bool :=
  cs.length = 10 &&
  isDigitAt cs 0 && isDigitAt cs 1 && isDigitAt cs 2 && isDigitAt cs 3 &&
  isCharAt cs 4 '-' &&
  isDigitAt cs 5 && isDigitAt cs 6 &&
  isCharAt cs 7 '-' &&
  isDigitAt cs 8 && isDigitAt cs 9

/-- reader.DATE_DIR_RE full match on a folder name. -/
def matchDateDir (s : String) : Bool :=
  isDateChars s.data

/-- Case-insensitive match of the ".parquet" extension: the effect of
re.IGNORECASE on the literal part of DATE_FILE_RE. -/
def extIsParquet (cs : List Char) : Bool :=
  cs.map Char.toLower = ".parquet".data

/-- reader.DATE_FILE_RE full match on a file name; returns capture group 1
(the date part). -/
def matchDateFile (s : String) : Option String :=
  let cs := s.data
  if cs.length = 18 && isDateChars (cs.take 10) && extIsParquet (cs.drop 10)
  then some (String.mk (cs.take 10))
  else none

-- ---------------------------------------------------------------------------
-- reader.py: discovery
-- ---------------------------------------------------------------------------

/-- Executable code-point lexicographic comparison on character lists:
the comparison Python's sorted() applies to date strings. -/
def strLeChars : List Char → List Char → Bool
  | [], _ => true
  | _ :: _, [] => false
  | a :: as, b :: bs =>
    if a < b then true else if b < a then false else strLeChars as bs

/-- Executable lexicographic order on strings (Python string
comparison). -/
def strLe (a b : String) : Bool :=
  strLeChars a.data b.data

/-- Remove a leading run of segments from a path; `none` when the first
argument is not a prefix. -/
def stripSegs : List String → List String → Option (List String)
  | [], q => some q
  | _ :: _, [] => none
  | a :: as, b :: bs => if a = b then stripSegs as bs else none

/-- Direct child of `root` contributed by the recorded path `q`:
its name and whether it appears as a directory.  A file path deeper than
one level below `root` appears as a directory entry. -/
def childEntry (root q : List String) (isFile : Bool) :
    Option (String × Bool) :=
  match stripSegs root q with
  | some (n :: rest) => some (n, !isFile || !rest.isEmpty)
  | _ => none

/-- The directory listing `Path.iterdir()` of `root`: each entry is a
(name, is-directory) pair, derived from the stored files and created
directories. -/
def fsChildren (fs : FS) (root : List String) : List (String × Bool) :=
  fs.files.filterMap (fun e => childEntry root e.1 true) ++
  fs.dirs.filterMap (fun q => childEntry root q false)

/-- reader._dataset_dir: the dataset's root location. -/
def dataset_dir (base : List String) (dataset : String) : List String :=
  base ++ [dataset]

/-- The union of dates discovered under the dataset root before sorting:
names of child directories matching DATE_DIR_RE, and capture groups of
child file names matching DATE_FILE_RE. -/
def discoveredDates (fs : FS) (root : List String) : List String :=
  let children := fsChildren fs root
  (children.filterMap (fun e =>
    if e.2 && matchDateDir e.1 then some e.1 else none)) ++
  (children.filterMap (fun e =>
    if e.2 then none else matchDateFile e.1))

/-- reader.list_dates (local branch): absent root gives the empty list;
otherwise the deduplicated union of matching folder and file dates in
ascending lexicographic order (Python sorted(set(a) | set(b))). -/
def list_dates (fs : FS) (base : List String) (dataset : String) :
    List String :=
  let root := dataset_dir base dataset
  if existsAt fs root then
    List.insertionSort (fun a b => strLe a b = true)
      (discoveredDates fs root).dedup
  else []

/-- reader.latest_date: last element of list_dates, or none. -/
def latest_date (fs : FS) (base : List String) (dataset : String) :
    Option String :=
  (list_dates fs base dataset).getLast?

/-- reader.snapshot_path: the preferred folder-per-date parquet object. -/
def snapshot_path (base : List String) (dataset datestr : String) :
    List String :=
  base ++ [dataset, datestr, datestr ++ ".parquet"]

/-- reader._snapshot_path_flat: the legacy flat parquet object. -/
def snapshot_path_flat (base : List String) (dataset datestr : String) :
    List String :=
  base ++ [dataset, datestr ++ ".parquet"]

/-- reader.manifest_path. -/
def manifest_path (base : List String) (dataset datestr : String) :
    List String :=
  base ++ [dataset, datestr, "manifest.json"]

/-- Errors raised by reader.load: FileNotFoundError when no dates exist,
FileNotFoundError naming both attempted locations when neither layout has
the object, and a backend error when a present object fails to parse. -/
inductive LoadError where
  | noSnapshots (dataset : String) (base : List String)
  | notFound (dataset datestr : String) (pref flat : List String)
  | backend (p : List String)
deriving DecidableEq

/-- pandas read_parquet at a path: the stored payload, or an error when
the object is missing or not parquet. -/
def readParquetAt (fs : FS) (p : List String) : Except LoadError Df :=
  match findFile fs p with
  | some (.parquet df) => .ok df
  | _ => .error (.backend p)

/-- The date-defaulting of reader.load and load_manifest:
date_str or latest_date(...) — Python treats an empty string as absent. -/
def resolveDate (fs : FS) (base : List String) (dataset : String) :
    Option String → Option String
  | some d => if d = "" then latest_date fs base dataset else some d
  | none => latest_date fs base dataset

/-- reader.load (local branch): resolve the date, try the folder-per-date
object, fall back to the legacy flat object, otherwise fail naming both
attempted locations. -/
def load (fs : FS) (base : List String) (dataset : String)
    (dateOpt : Option String) : Except LoadError Df :=
  match resolveDate fs base dataset dateOpt with
  | none => .error (.noSnapshots dataset base)
  | some d =>
    let pref := snapshot_path base dataset d
    let flat := snapshot_path_flat base dataset d
    if existsAt fs pref then readParquetAt fs pref
    else if existsAt fs flat then readParquetAt fs flat
    else .error (.notFound dataset d pref flat)

-- ---------------------------------------------------------------------------
-- writer.py
-- ---------------------------------------------------------------------------

/-- The sequence of storage operations of one dataset iteration of
writer.main after its loader returned a non-empty payload: the three
primitive steps of write_parquet_atomic (create folder and tmp, stage the
temporary object, promote), then write_text of the manifest, then
write_text of the zero-byte "__SUCCESS" marker.  An exception at any
point aborts the iteration, so an interrupted run is a prefix of this
list. -/
def writer_dataset_ops (dest : List String) (df : Df) (manifest : String) :
    List (FS → FS) :=
  [fun fs => mkdirp fs (dest ++ ["tmp"]),
   fun fs => setFile fs (dest ++ ["tmp", defaultParquetName dest])
     (.parquet df),
   fun fs => promoteTmp dest (defaultParquetName dest) fs,
   fun fs => write_text dest "manifest.json" manifest fs,
   fun fs => write_text dest "__SUCCESS" "" fs]

/-- Run an operation sequence left to right. -/
def run_ops (ops : List (FS → FS)) (fs : FS) : FS :=
  ops.foldl (fun s f => f s) fs

/-- One complete dataset iteration of writer.main (storage effects):
write_parquet_atomic with the default file name, then the manifest, then
the marker. -/
def writer_step (dest : List String) (df : Df) (manifest : String)
    (fs : FS) : FS :=
  write_text dest "__SUCCESS" ""
    (write_text dest "manifest.json" manifest
      (write_parquet_atomic df dest none fs))

/-- writer.main's entry guard and loop (storage effects only):
BASE_URI comes from the SNAPSHOT_BASE_DIR environment variable; a missing
or empty value raises RuntimeError before any storage operation.
baseSegs is the segment form of the base URI; each job carries the
dataset's partition destination together with the loaded payload and the
serialised manifest. -/
def writer_main (baseEnv : Option String)
    (jobs : List ((List String) × Df × String)) (fs : FS) :
    Except String FS :=
  if baseEnv.getD "" = "" then
    .error "SNAPSHOT_BASE_DIR is not set (BASE_URI is empty). Aborting."
  else
    .ok (jobs.foldl (fun s j => writer_step j.1 j.2.1 j.2.2 s) fs)

-- ---------------------------------------------------------------------------
-- storage.py / reader.py: string-level URI functions
-- ---------------------------------------------------------------------------

/-- Python s.strip(sep) for a single character: drop every leading and
trailing occurrence. -/
def stripCharEnds (sep : Char) (s : String) : String :=
  String.mk (((s.data.dropWhile (fun c => c = sep)).reverse.dropWhile
    (fun c => c = sep)).reverse)

/-- Python s.replace(backslash, slash). -/
def replaceBackslashes (s : String) : String :=
  String.mk (s.data.map (fun c => if c = '\\' then '/' else c))

/-- The per-part processing of storage._join_uri:
p.strip(slash) then backslash replacement. -/
def joinPart (p : String) : String :=
  replaceBackslashes (stripCharEnds '/' p)

/-- storage._join_uri: join URI segments with single slashes. -/
def join_uri (parts : List String) : String :=
  String.intercalate "/" (parts.map joinPart)

/-- storage.snapshot_root: base folder of a dataset. -/
def snapshot_root (base_uri dataset : String) : String :=
  join_uri [base_uri, dataset]

/-- storage.snapshot_uri: daily partition folder; the date argument is
the ISO form d.isoformat() of the Python date object. -/
def snapshot_uri (base_uri dataset dIso : String) : String :=
  join_uri [snapshot_root base_uri dataset, dIso]

/-- storage.object_uri: child object inside a snapshot folder. -/
def object_uri (folder_uri name : String) : String :=
  join_uri [folder_uri, name]

/-- Two adjacent path separators somewhere in the character list. -/
def hasDupSep : List Char → Bool
  | c1 :: c2 :: rest => (c1 = '/' && c2 = '/') || hasDupSep (c2 :: rest)
  | _ => false

/-- Python str.startswith, as an executable character-list test. -/
def strStartsWith (s pre : String) : Bool :=
  pre.data.isPrefixOf s.data

/-- Python str.strip() (whitespace form), for reader._coerce_base. -/
def stripWs (s : String) : String :=
  String.mk (((s.data.dropWhile Char.isWhitespace).reverse.dropWhile
    Char.isWhitespace).reverse)

/-- The regex of reader._coerce_base for a Windows drive path:
a letter, a colon, then a slash or backslash (anchored at the start
only). -/
def isWindowsDrive (s : String) : Bool :=
  match s.data with
  | a :: b :: c :: _ => a.isAlpha && b = ':' && (c = '\\' || c = '/')
  | _ => false

/-- reader._get_default_base_uri: the SNAPSHOT_BASE_URI environment
variable when set and non-empty, else the hard-coded default. -/
def get_default_base_uri (envVar : Option String) : String :=
  match envVar with
  | some e => if e = "" then "file://./data/snapshots" else e
  | none => "file://./data/snapshots"

/-- reader._coerce_base: normalize the base into a URI string.  An unset
or empty argument falls back to get_default_base_uri; the stripped value
being empty raises ValueError; s3:// and file:// pass through; Windows
drive and POSIX absolute paths gain a file scheme; a relative path is
resolved against the working directory (Path.resolve, abstracted as the
resolve argument). -/
def coerce_base (resolve : String → String) (envVar : Option String)
    (base_uriOpt : Option String) : Except String String :=
  let raw :=
    match base_uriOpt with
    | some b => if b = "" then get_default_base_uri envVar else b
    | none => get_default_base_uri envVar
  let b := stripCharEnds '\'' (stripCharEnds '"' (stripWs raw))
  if b = "" then
    .error "SNAPSHOT_BASE_URI is not set and no base_uri was provided."
  else if strStartsWith b "s3://" || strStartsWith b "file://" then .ok b
  else if isWindowsDrive b then .ok ("file:///" ++ replaceBackslashes b)
  else if strStartsWith b "/" then .ok ("file://" ++ b)
  else .ok ("file://" ++ replaceBackslashes (resolve b))

-- ---------------------------------------------------------------------------
-- Concrete payloads and stores used in the evaluations
-- ---------------------------------------------------------------------------

/-- A small concrete payload. -/
def dfOne : Df := ⟨["npi", "status"], [["123", "cleared"]]⟩

/-- A second concrete payload, different from dfOne. -/
def dfTwo : Df := ⟨["npi", "status"], [["456", "checked"], ["789", "new"]]⟩

/-- Store of the spec's discovery example: a partitioned object for
2025-08-10 and a legacy flat object for 2025-08-09 under one dataset. -/
def fsBoth : FS :=
  ⟨[(["data", "licenses", "2025-08-10", "2025-08-10.parquet"],
      .parquet dfOne),
    (["data", "licenses", "2025-08-09.parquet"], .parquet dfTwo)], []⟩

/-- The state of an interrupted payload promote: the first two writer
operations (create folder and tmp, stage the temporary object) ran, the
promote did not. -/
def fsC1 : FS :=
  run_ops ((writer_dataset_ops ["data", "enrollments", "2025-08-10"]
    dfOne "{}").take 2) FS.empty

/-- The state of a write interrupted after the promote but before the
manifest and marker: the first three writer operations ran. -/
def fsC2 : FS :=
  run_ops ((writer_dataset_ops ["data", "enrollments", "2025-08-10"]
    dfOne "{}").take 3) FS.empty

/-- A store whose only object is a legacy flat file with an upper-case
extension. -/
def fsC10 : FS :=
  ⟨[(["data", "enrollments", "2025-08-09.PARQUET"], .parquet dfOne)], []⟩

-- ---------------------------------------------------------------------------
-- Helper lemmas: file lookup under the storage operations
-- ---------------------------------------------------------------------------

theorem lookupFileList_filter_ne {p q : List String} (h : q ≠ p) :
    ∀ l : List (List String × Content),
      lookupFileList q (l.filter (fun e => ¬ e.1 = p)) = lookupFileList q l
  | [] => rfl
  | e :: rest => by
    by_cases hp : e.1 = p
    · have hq : e.1 ≠ q := by rw [hp]; exact fun hx => h hx.symm
      have hfil : (e :: rest).filter (fun e => ¬ e.1 = p) =
          rest.filter (fun e => ¬ e.1 = p) := by
        simp [List.filter_cons, hp]
      rw [hfil, lookupFileList_filter_ne h rest,
        show lookupFileList q (e :: rest) =
          if e.1 = q then some e.2 else lookupFileList q rest from rfl,
        if_neg hq]
    · have hfil : (e :: rest).filter (fun e => ¬ e.1 = p) =
          e :: rest.filter (fun e => ¬ e.1 = p) := by
        simp [List.filter_cons, hp]
      rw [hfil,
        show lookupFileList q (e :: rest.filter (fun e => ¬ e.1 = p)) =
          if e.1 = q then some e.2
          else lookupFileList q (rest.filter (fun e => ¬ e.1 = p)) from rfl,
        show lookupFileList q (e :: rest) =
          if e.1 = q then some e.2 else lookupFileList q rest from rfl]
      by_cases hq : e.1 = q
      · simp [hq]
      · simp only [if_neg hq]
        exact lookupFileList_filter_ne h rest

theorem findFile_setFile_self (fs : FS) (p : List String) (c : Content) :
    findFile (setFile fs p c) p = some c := by
  simp [findFile, setFile, lookupFileList]

theorem findFile_setFile_ne (fs : FS) (p : List String) (c : Content)
    {q : List String} (h : q ≠ p) :
    findFile (setFile fs p c) q = findFile fs q := by
  simp only [findFile, setFile]
  rw [show lookupFileList q ((p, c) :: fs.files.filter (fun e => ¬ e.1 = p)) =
    lookupFileList q (fs.files.filter (fun e => ¬ e.1 = p)) from
    if_neg (fun hq => h hq.symm)]
  exact lookupFileList_filter_ne h fs.files

theorem findFile_removeFile_ne (fs : FS) (p : List String)
    {q : List String} (h : q ≠ p) :
    findFile (removeFile fs p) q = findFile fs q := by
  simp only [findFile, removeFile]
  exact lookupFileList_filter_ne h fs.files

theorem findFile_mkdirp (fs : FS) (p q : List String) :
    findFile (mkdirp fs p) q = findFile fs q := rfl

theorem findFile_write_text_self (folder : List String) (name content : String)
    (fs : FS) :
    findFile (write_text folder name content fs) (folder ++ [name]) =
      some (.text content) :=
  findFile_setFile_self _ _ _

theorem findFile_write_text_ne (folder : List String) (name content : String)
    (fs : FS) {q : List String} (h : q ≠ folder ++ [name]) :
    findFile (write_text folder name content fs) q = findFile fs q := by
  unfold write_text
  rw [findFile_setFile_ne _ _ _ h, findFile_mkdirp]

theorem findFile_renameFile_other {src dst : List String} (fs : FS)
    {q : List String} (h1 : q ≠ src) (h2 : q ≠ dst) :
    findFile (renameFile src dst fs) q = findFile fs q := by
  unfold renameFile
  cases hf : findFile fs src with
  | none => rfl
  | some c =>
    rw [findFile_setFile_ne _ _ _ h2, findFile_removeFile_ne _ _ h1]

theorem findFile_renameFile_dst {src dst : List String} (fs : FS)
    {c : Content} (h : findFile fs src = some c) :
    findFile (renameFile src dst fs) dst = some c := by
  unfold renameFile
  rw [h, findFile_setFile_self]

theorem existsAt_of_findFile {fs : FS} {p : List String} {c : Content}
    (h : findFile fs p = some c) : existsAt fs p = true := by
  simp [existsAt, fileExistsAt, h]

-- ---------------------------------------------------------------------------
-- Helper lemmas: paths and strings
-- ---------------------------------------------------------------------------

theorem append_singleton_ne {xs : List String} {a b : String} (h : a ≠ b) :
    xs ++ [a] ≠ xs ++ [b] := by
  intro he
  exact h (by simpa using List.append_cancel_left he)

theorem append_ne_of_length {xs ys zs : List String}
    (h : ys.length ≠ zs.length) : xs ++ ys ≠ xs ++ zs := by
  intro he
  exact h (by rw [List.append_cancel_left he])

theorem strAppend_data (a b : String) : (a ++ b).data = a.data ++ b.data :=
  rfl

theorem strLength_eq_data (s : String) : s.length = s.data.length := rfl

theorem getLast?_parquetAppend (x : String) :
    (x ++ ".parquet").data.getLast? = some 't' := by
  rw [strAppend_data,
    show (".parquet" : String).data =
      '.' :: ['p', 'a', 'r', 'q', 'u', 'e', 't'] from rfl,
    List.getLast?_append_cons]
  rfl

theorem parquetAppend_ne {x t : String}
    (h : t.data.getLast? ≠ some 't') : x ++ ".parquet" ≠ t := by
  intro he
  exact h (he ▸ getLast?_parquetAppend x)

theorem parquetAppend_ne_manifest (x : String) :
    x ++ ".parquet" ≠ "manifest.json" :=
  parquetAppend_ne (by decide)

theorem parquetAppend_ne_success (x : String) :
    x ++ ".parquet" ≠ "__SUCCESS" :=
  parquetAppend_ne (by decide)

theorem parquetAppend_ne_tmp (x : String) : x ++ ".parquet" ≠ "tmp" :=
  parquetAppend_ne (by decide)

theorem parquetAppend_length (x : String) :
    (x ++ ".parquet").length = x.length + 8 := by
  rw [strLength_eq_data, strAppend_data, List.length_append]
  rfl

theorem matchDateDir_length {s : String} (h : matchDateDir s = true) :
    s.length = 10 := by
  simp only [matchDateDir, isDateChars, Bool.and_eq_true,
    decide_eq_true_eq] at h
  rw [strLength_eq_data]
  exact h.1.1.1.1.1.1.1.1.1.1

theorem matchDateDir_ne_empty {s : String} (h : matchDateDir s = true) :
    s ≠ "" := by
  intro he
  have := matchDateDir_length h
  rw [he] at this
  simp at this

theorem pathLeq_append (xs ys zs : List String) :
    pathLeq (xs ++ ys) (xs ++ zs) = pathLeq ys zs := by
  induction xs with
  | nil => rfl
  | cons a as ih => simp [pathLeq, ih]

theorem stripSegs_append (xs ys : List String) :
    stripSegs xs (xs ++ ys) = some ys := by
  induction xs with
  | nil => rfl
  | cons a as ih => simp [stripSegs, ih]

theorem getLast?_append_cons (xs : List String) (a : String)
    (ys : List String) : (xs ++ a :: ys).getLast? = (a :: ys).getLast? :=
  List.getLast?_append_cons xs a ys

theorem lastSegment_append_singleton (xs : List String) (a : String) :
    lastSegment (xs ++ [a]) = a := by
  simp [lastSegment, getLast?_append_cons]

theorem ne_of_strLength_ne {a b : String} (h : a.length ≠ b.length) :
    a ≠ b := fun he => h (he ▸ rfl)

-- ---------------------------------------------------------------------------
-- Helper lemmas: the writer's effect on the store
-- ---------------------------------------------------------------------------

theorem findFile_stageTmp_self (df : Df) (folder : List String)
    (fn : String) (fs : FS) :
    findFile (stageTmp df folder fn fs) (folder ++ ["tmp", fn]) =
      some (.parquet df) :=
  findFile_setFile_self _ _ _

theorem findFile_wpa_final (df : Df) (folder : List String) (fs : FS) :
    findFile (write_parquet_atomic df folder none fs)
      (folder ++ [defaultParquetName folder]) =
      some (.parquet df) := by
  unfold write_parquet_atomic promoteTmp
  exact findFile_renameFile_dst _ (findFile_stageTmp_self _ _ _ _)

theorem findFile_wpa_other (df : Df) (folder : List String) (fs : FS)
    {q : List String} (h1 : q ≠ folder ++ ["tmp", defaultParquetName folder])
    (h2 : q ≠ folder ++ [defaultParquetName folder]) :
    findFile (write_parquet_atomic df folder none fs) q = findFile fs q := by
  unfold write_parquet_atomic promoteTmp stageTmp
  rw [findFile_renameFile_other _ h1 h2, findFile_setFile_ne _ _ _ h1,
    findFile_mkdirp]

theorem findFile_writer_step_payload (dest : List String) (df : Df)
    (m : String) (fs : FS) :
    findFile (writer_step dest df m fs)
      (dest ++ [defaultParquetName dest]) = some (.parquet df) := by
  have h1 : defaultParquetName dest ≠ "manifest.json" :=
    parquetAppend_ne_manifest (lastSegment dest)
  have h2 : defaultParquetName dest ≠ "__SUCCESS" :=
    parquetAppend_ne_success (lastSegment dest)
  unfold writer_step
  rw [findFile_write_text_ne _ _ _ _ (append_singleton_ne h2),
    findFile_write_text_ne _ _ _ _ (append_singleton_ne h1),
    findFile_wpa_final]

theorem findFile_writer_step_manifest (dest : List String) (df : Df)
    (m : String) (fs : FS) :
    findFile (writer_step dest df m fs) (dest ++ ["manifest.json"]) =
      some (.text m) := by
  unfold writer_step
  rw [findFile_write_text_ne _ _ _ _ (append_singleton_ne (by decide)),
    findFile_write_text_self]

theorem findFile_writer_step_marker (dest : List String) (df : Df)
    (m : String) (fs : FS) :
    findFile (writer_step dest df m fs) (dest ++ ["__SUCCESS"]) =
      some (.text "") :=
  findFile_write_text_self _ _ _ _

theorem defaultParquetName_dest (base : List String) (ds d : String) :
    defaultParquetName (base ++ [ds, d]) = d ++ ".parquet" := by
  have h : base ++ [ds, d] = (base ++ [ds]) ++ [d] := by simp
  unfold defaultParquetName
  rw [h, lastSegment_append_singleton]

theorem snapshot_path_eq (base : List String) (ds d : String) :
    snapshot_path base ds d = (base ++ [ds, d]) ++ [d ++ ".parquet"] := by
  simp [snapshot_path]

-- ---------------------------------------------------------------------------
-- Helper lemmas: reader.load case analysis
-- ---------------------------------------------------------------------------

theorem resolveDate_some {fs : FS} {base : List String} {ds d : String}
    (hd : d ≠ "") : resolveDate fs base ds (some d) = some d := by
  simp [resolveDate, hd]

theorem load_of_pref {fs : FS} {base : List String} {ds d : String}
    {df : Df} (hd : d ≠ "")
    (h : findFile fs (snapshot_path base ds d) = some (.parquet df)) :
    load fs base ds (some d) = .ok df := by
  unfold load
  rw [resolveDate_some hd]
  simp only [existsAt_of_findFile h, if_true]
  simp [readParquetAt, h]

theorem load_of_flat {fs : FS} {base : List String} {ds d : String}
    {df : Df} (hd : d ≠ "")
    (hpref : existsAt fs (snapshot_path base ds d) = false)
    (h : findFile fs (snapshot_path_flat base ds d) = some (.parquet df)) :
    load fs base ds (some d) = .ok df := by
  unfold load
  rw [resolveDate_some hd]
  simp only [hpref, Bool.false_eq_true, if_false,
    existsAt_of_findFile h, if_true]
  simp [readParquetAt, h]

theorem load_neither {fs : FS} {base : List String} {ds d : String}
    (hd : d ≠ "")
    (hpref : existsAt fs (snapshot_path base ds d) = false)
    (hflat : existsAt fs (snapshot_path_flat base ds d) = false) :
    load fs base ds (some d) =
      .error (.notFound ds d (snapshot_path base ds d)
        (snapshot_path_flat base ds d)) := by
  unfold load
  rw [resolveDate_some hd]
  simp only [hpref, hflat, Bool.false_eq_true, if_false]

theorem load_none_of_no_dates {fs : FS} {base : List String} {ds : String}
    (h : list_dates fs base ds = []) :
    load fs base ds none = .error (.noSnapshots ds base) := by
  unfold load resolveDate latest_date
  rw [h]
  rfl

-- ---------------------------------------------------------------------------
-- Helper lemmas: strLe agrees with the lexicographic order on String
-- ---------------------------------------------------------------------------

theorem strLeChars_iff : ∀ as bs : List Char,
    strLeChars as bs = true ↔ ¬ List.lt bs as
  | [], bs => by
    constructor
    · intro _ h; cases h
    · intro _; rfl
  | a :: as, [] => by
    constructor
    · intro h; simp [strLeChars] at h
    · intro h; exact absurd (List.lt.nil a as) h
  | a :: as, b :: bs => by
    simp only [strLeChars]
    by_cases hab : a < b
    · simp only [if_pos hab]
      constructor
      · intro _ h
        cases h with
        | head _ _ hba => exact lt_asymm hab hba
        | tail h1 h2 h3 => exact h2 hab
      · intro _; trivial
    · simp only [if_neg hab]
      by_cases hba : b < a
      · simp only [if_pos hba]
        constructor
        · intro h; simp at h
        · intro h; exact absurd (List.lt.head bs as hba) h
      · simp only [if_neg hba]
        rw [strLeChars_iff as bs]
        constructor
        · intro h hlt
          cases hlt with
          | head _ _ hba2 => exact hba hba2
          | tail h1 h2 h3 => exact h h3
        · intro h hlt
          exact h (List.lt.tail hba hab hlt)

theorem strLe_iff_le {a b : String} : strLe a b = true ↔ a ≤ b := by
  have h2 : (b < a) ↔ List.lt b.data a.data :=
    String.lt_iff_toList_lt.trans (List.lt_iff_lex_lt b.data a.data).symm
  exact (strLeChars_iff a.data b.data).trans (not_congr h2).symm

theorem strLe_total (a b : String) : strLe a b = true ∨ strLe b a = true := by
  rcases le_total a b with h | h
  · exact Or.inl (strLe_iff_le.mpr h)
  · exact Or.inr (strLe_iff_le.mpr h)

theorem strLe_trans {a b c : String} (h1 : strLe a b = true)
    (h2 : strLe b c = true) : strLe a c = true :=
  strLe_iff_le.mpr (le_trans (strLe_iff_le.mp h1) (strLe_iff_le.mp h2))

-- ---------------------------------------------------------------------------
-- Helper lemmas: structure of list_dates
-- ---------------------------------------------------------------------------

theorem list_dates_empty_of_absent {fs : FS} {base : List String}
    {ds : String} (h : existsAt fs (dataset_dir base ds) = false) :
    list_dates fs base ds = [] := by
  simp [list_dates, h]

theorem mem_list_dates {fs : FS} {base : List String} {ds x : String} :
    x ∈ list_dates fs base ds ↔
      existsAt fs (dataset_dir base ds) = true ∧
      x ∈ discoveredDates fs (dataset_dir base ds) := by
  unfold list_dates
  by_cases h : existsAt fs (dataset_dir base ds) = true
  · simp only [h, if_true, true_and]
    rw [List.Perm.mem_iff (List.perm_insertionSort _ _)]
    exact List.mem_dedup
  · simp [h]

theorem list_dates_nodup (fs : FS) (base : List String) (ds : String) :
    (list_dates fs base ds).Nodup := by
  unfold list_dates
  by_cases h : existsAt fs (dataset_dir base ds) = true
  · simp only [h, if_true]
    exact ((List.perm_insertionSort _ _).nodup_iff).mpr (List.nodup_dedup _)
  · simp [h]

theorem list_dates_sorted_le (fs : FS) (base : List String) (ds : String) :
    (list_dates fs base ds).Sorted (· ≤ ·) := by
  haveI : IsTotal String (fun a b => strLe a b = true) := ⟨strLe_total⟩
  haveI : IsTrans String (fun a b => strLe a b = true) :=
    ⟨fun _ _ _ h1 h2 => strLe_trans h1 h2⟩
  unfold list_dates
  by_cases h : existsAt fs (dataset_dir base ds) = true
  · simp only [h, if_true]
    exact (List.sorted_insertionSort _ _).imp (fun hx => strLe_iff_le.mp hx)
  · simp [h]

theorem list_dates_sorted_lt (fs : FS) (base : List String) (ds : String) :
    (list_dates fs base ds).Sorted (· < ·) :=
  (list_dates_sorted_le fs base ds).lt_of_le (list_dates_nodup fs base ds)

-- ---------------------------------------------------------------------------
-- Helper lemmas: URI joining and duplicate separators
-- ---------------------------------------------------------------------------

theorem pathLeq_self_append (xs ys : List String) :
    pathLeq xs (xs ++ ys) = true := by
  induction xs with
  | nil => rfl
  | cons a as ih => simp [pathLeq, ih]

theorem join_uri_pair (f n : String) :
    join_uri [f, n] = joinPart f ++ "/" ++ joinPart n := rfl

theorem join_uri_pair_data (f n : String) :
    (join_uri [f, n]).data = (joinPart f).data ++ '/' :: (joinPart n).data := by
  rw [join_uri_pair, strAppend_data, strAppend_data]
  simp

theorem hasDupSep_slash_cons (b : List Char) :
    hasDupSep ('/' :: b) = (hasDupSep b || decide (b.head? = some '/')) := by
  cases b with
  | nil => rfl
  | cons c bs =>
    show ((decide (('/' : Char) = '/') && decide (c = '/')) ||
        hasDupSep (c :: bs)) = _
    simp [Bool.or_comm]

theorem hasDupSep_append : ∀ (a b : List Char),
    hasDupSep (a ++ '/' :: b) =
      (hasDupSep a || hasDupSep b ||
       decide (a.getLast? = some '/') || decide (b.head? = some '/'))
  | [], b => by
    simp only [List.nil_append]
    rw [hasDupSep_slash_cons]
    simp [hasDupSep]
  | [x], b => by
    simp only [List.cons_append, List.nil_append]
    show ((decide (x = '/') && decide (('/' : Char) = '/')) ||
        hasDupSep ('/' :: b)) = _
    rw [hasDupSep_slash_cons]
    simp [hasDupSep, Bool.or_comm, Bool.or_left_comm, Bool.or_assoc]
  | x :: y :: ys, b => by
    have ih := hasDupSep_append (y :: ys) b
    show ((decide (x = '/') && decide (y = '/')) ||
        hasDupSep (y :: (ys ++ '/' :: b))) = _
    rw [show (y :: (ys ++ '/' :: b)) = (y :: ys) ++ '/' :: b from rfl, ih,
      List.getLast?_cons_cons]
    show _ = (((decide (x = '/') && decide (y = '/')) ||
        hasDupSep (y :: ys)) || hasDupSep b ||
      decide ((y :: ys).getLast? = some '/') || decide (b.head? = some '/'))
    simp only [Bool.or_assoc]


-- ---------------------------------------------------------------------------
-- Claims
-- ---------------------------------------------------------------------------

/-- C2 (code bug): the claim says the completion marker is the single
source of truth and a marker-less partition is invisible to readers.
The code contradicts this (and its own docstrings in storage.py):
after a write interrupted between the payload promote and the marker
write, has_success_marker is false, yet reader.load returns the
partition's payload — load never consults the marker. -/
theorem c2_marker_not_consulted :
    has_success_marker fsC2 ["data", "enrollments", "2025-08-10"] = false ∧
    load fsC2 ["data"] "enrollments" (some "2025-08-10") = .ok dfOne :=
  ⟨rfl, rfl⟩

/-- C10 (confirmed): DATE_FILE_RE matches the .parquet extension
case-insensitively, so a legacy file named 2025-08-09.PARQUET is counted
as a date by list_dates, while DATE_DIR_RE requires the exact ten
character date shape; load's exact-name fallback then fails for that
date, since the flat path it consults ends in lower-case ".parquet". -/
theorem c10_case_insensitive_ext :
    matchDateFile "2025-08-09.PARQUET" = some "2025-08-09" ∧
    matchDateFile "2025-08-09.parquet" = some "2025-08-09" ∧
    matchDateDir "2025-08-09.PARQUET" = false ∧
    list_dates fsC10 ["data"] "enrollments" = ["2025-08-09"] ∧
    load fsC10 ["data"] "enrollments" (some "2025-08-09") =
      .error (.notFound "enrollments" "2025-08-09"
        ["data", "enrollments", "2025-08-09", "2025-08-09.parquet"]
        ["data", "enrollments", "2025-08-09.parquet"]) :=
  ⟨rfl, rfl, rfl, rfl, rfl⟩

/-- C5 counterexample: with no base argument and no environment value,
reader._coerce_base silently substitutes the default
file://./data/snapshots instead of raising a configuration error,
refuting "never silently replaced by a default". -/
theorem c5_counterexample :
    coerce_base (fun s => s) none none = .ok "file://./data/snapshots" :=
  rfl

/-- C5 (amended): the writer treats an unset or empty SNAPSHOT_BASE_DIR
as a fatal configuration error raised before any storage operation; the
reader, however, replaces an unset base with the SNAPSHOT_BASE_URI
environment value or the hard-coded default, and raises only when the
coerced base strips to the empty string (for example a whitespace-only
environment value). -/
theorem c5_amended :
    (∀ jobs fs, writer_main none jobs fs =
      .error "SNAPSHOT_BASE_DIR is not set (BASE_URI is empty). Aborting.") ∧
    (∀ jobs fs, writer_main (some "") jobs fs =
      .error "SNAPSHOT_BASE_DIR is not set (BASE_URI is empty). Aborting.") ∧
    (∀ resolve, coerce_base resolve none none =
      .ok "file://./data/snapshots") ∧
    (∀ resolve, coerce_base resolve (some "  ") none =
      .error "SNAPSHOT_BASE_URI is not set and no base_uri was provided.") :=
  ⟨fun _ _ => rfl, fun _ _ => rfl, fun _ => rfl, fun _ => rfl⟩

/-- C9 counterexample: joining an absolute-path base strips its leading
separator, so the join does not preserve the meaning of an absolute-path
base location ("/data/snapshots" joined with "x" yields the relative
"data/snapshots/x"); and because the per-part strip of slashes runs
before backslash conversion, a part with a trailing backslash produces a
duplicate separator at the seam ("a\" joined with "x" yields "a//x"),
refuting the unconditional no-duplicate-separator reading as well. -/
theorem c9_counterexample :
    join_uri ["/data/snapshots", "x"] = "data/snapshots/x" ∧
    strStartsWith "/data/snapshots" "/" = true ∧
    strStartsWith (join_uri ["/data/snapshots", "x"]) "/" = false ∧
    join_uri ["a\\", "x"] = "a//x" ∧
    hasDupSep (join_uri ["a\\", "x"]).data = true :=
  ⟨rfl, rfl, rfl, rfl, rfl⟩

/-- C9 (amended): object_uri strips leading and trailing forward slashes
of each part and then converts backslashes to slashes; the joined
location has a duplicate separator exactly where a processed part
already has one internally (as s3:// URIs do), where the first processed
part ends with a separator, or where the second begins with one — edge
separators that, after stripping, can only arise from converted
backslashes, e.g. joining "a\" with "x" gives "a//x", while plain
forward-slash edges are stripped ("a/" with "/x" gives "a/x").  The
partition location is the nested join of base, dataset and ISO date.
The leading separator of an absolute-path base is stripped (see the
counterexample). -/
theorem c9_join_uri :
    (∀ f n : String, hasDupSep (object_uri f n).data =
      (hasDupSep (joinPart f).data || hasDupSep (joinPart n).data ||
       decide ((joinPart f).data.getLast? = some '/') ||
       decide ((joinPart n).data.head? = some '/'))) ∧
    (∀ b ds dIso, snapshot_uri b ds dIso =
      object_uri (object_uri b ds) dIso) ∧
    object_uri "a\\b" "c" = "a/b/c" ∧
    object_uri "a\\" "x" = "a//x" ∧
    object_uri "a/" "/x" = "a/x" ∧
    object_uri "s3://bucket/prefix" "enrollments" =
      "s3://bucket/prefix/enrollments" := by
  refine ⟨fun f n => ?_, fun _ _ _ => rfl, rfl, rfl, rfl, rfl⟩
  show hasDupSep (join_uri [f, n]).data = _
  rw [join_uri_pair_data]
  exact hasDupSep_append (joinPart f).data (joinPart n).data

theorem run_ops_full_eq_writer_step (dest : List String) (df : Df)
    (m : String) (fs : FS) :
    run_ops (writer_dataset_ops dest df m) fs = writer_step dest df m fs :=
  rfl

/-- C3 (confirmed): in one writer iteration the manifest and marker
writes come strictly after the three payload steps (create folders,
stage, promote); any interruption covering at most the payload steps
leaves the manifest and marker objects of the partition untouched, while
the full iteration ends with both present. -/
theorem c3_manifest_marker_last (dest : List String) (df : Df) (m : String)
    (fs : FS) (k : Nat) (hk : k ≤ 3) :
    (findFile (run_ops ((writer_dataset_ops dest df m).take k) fs)
        (dest ++ ["manifest.json"]) =
      findFile fs (dest ++ ["manifest.json"]) ∧
     findFile (run_ops ((writer_dataset_ops dest df m).take k) fs)
        (dest ++ ["__SUCCESS"]) =
      findFile fs (dest ++ ["__SUCCESS"])) ∧
    (findFile (run_ops (writer_dataset_ops dest df m) fs)
        (dest ++ ["manifest.json"]) = some (.text m) ∧
     findFile (run_ops (writer_dataset_ops dest df m) fs)
        (dest ++ ["__SUCCESS"]) = some (.text "")) := by
  have hm2 : dest ++ ["manifest.json"] ≠
      dest ++ ["tmp", defaultParquetName dest] :=
    append_ne_of_length (by simp)
  have hs2 : dest ++ ["__SUCCESS"] ≠
      dest ++ ["tmp", defaultParquetName dest] :=
    append_ne_of_length (by simp)
  have hm3 : dest ++ ["manifest.json"] ≠ dest ++ [defaultParquetName dest] :=
    append_singleton_ne
      (Ne.symm (parquetAppend_ne_manifest (lastSegment dest)))
  have hs3 : dest ++ ["__SUCCESS"] ≠ dest ++ [defaultParquetName dest] :=
    append_singleton_ne
      (Ne.symm (parquetAppend_ne_success (lastSegment dest)))
  refine ⟨?_, ?_, ?_⟩
  · interval_cases k
    · exact ⟨rfl, rfl⟩
    · exact ⟨rfl, rfl⟩
    · constructor
      · show findFile (setFile _ _ _) _ = _
        rw [findFile_setFile_ne _ _ _ hm2, findFile_mkdirp]
      · show findFile (setFile _ _ _) _ = _
        rw [findFile_setFile_ne _ _ _ hs2, findFile_mkdirp]
    · constructor
      · show findFile (promoteTmp dest (defaultParquetName dest) _) _ = _
        unfold promoteTmp
        rw [findFile_renameFile_other _ hm2 hm3,
          findFile_setFile_ne _ _ _ hm2, findFile_mkdirp]
      · show findFile (promoteTmp dest (defaultParquetName dest) _) _ = _
        unfold promoteTmp
        rw [findFile_renameFile_other _ hs2 hs3,
          findFile_setFile_ne _ _ _ hs2, findFile_mkdirp]
  · rw [run_ops_full_eq_writer_step]
    exact findFile_writer_step_manifest dest df m fs
  · rw [run_ops_full_eq_writer_step]
    exact findFile_writer_step_marker dest df m fs

/-- Witness for c3_manifest_marker_last: a concrete interruption right
after the temporary object was staged (two of five operations ran). -/
theorem c3_manifest_marker_last_witness :
    2 ≤ 3 ∧
    ((findFile (run_ops ((writer_dataset_ops ["b", "ds", "2025-08-10"]
          dfOne "{}").take 2) FS.empty)
        (["b", "ds", "2025-08-10"] ++ ["manifest.json"]) =
      findFile FS.empty (["b", "ds", "2025-08-10"] ++ ["manifest.json"]) ∧
      findFile (run_ops ((writer_dataset_ops ["b", "ds", "2025-08-10"]
          dfOne "{}").take 2) FS.empty)
        (["b", "ds", "2025-08-10"] ++ ["__SUCCESS"]) =
      findFile FS.empty (["b", "ds", "2025-08-10"] ++ ["__SUCCESS"])) ∧
     (findFile (run_ops (writer_dataset_ops ["b", "ds", "2025-08-10"]
          dfOne "{}") FS.empty)
        (["b", "ds", "2025-08-10"] ++ ["manifest.json"]) =
          some (.text "{}") ∧
      findFile (run_ops (writer_dataset_ops ["b", "ds", "2025-08-10"]
          dfOne "{}") FS.empty)
        (["b", "ds", "2025-08-10"] ++ ["__SUCCESS"]) = some (.text ""))) :=
  ⟨by decide,
    c3_manifest_marker_last ["b", "ds", "2025-08-10"] dfOne "{}" FS.empty 2
      (by decide)⟩

/-- C4 (confirmed): load consults the partitioned-layout object first,
falls back to the legacy flat object when the preferred one is absent,
fails with a NotFound error naming both attempted locations when neither
exists, and fails with NotFound when no dates exist at all for the
dataset. -/
theorem c4_load_fallback :
    (∀ fs base ds d df, d ≠ "" →
      findFile fs (snapshot_path base ds d) = some (.parquet df) →
      load fs base ds (some d) = .ok df) ∧
    (∀ fs base ds d df, d ≠ "" →
      existsAt fs (snapshot_path base ds d) = false →
      findFile fs (snapshot_path_flat base ds d) = some (.parquet df) →
      load fs base ds (some d) = .ok df) ∧
    (∀ fs base ds d, d ≠ "" →
      existsAt fs (snapshot_path base ds d) = false →
      existsAt fs (snapshot_path_flat base ds d) = false →
      load fs base ds (some d) =
        .error (.notFound ds d (snapshot_path base ds d)
          (snapshot_path_flat base ds d))) ∧
    (∀ fs base ds, list_dates fs base ds = [] →
      load fs base ds none = .error (.noSnapshots ds base)) :=
  ⟨fun _ _ _ _ _ hd h => load_of_pref hd h,
   fun _ _ _ _ _ hd hp h => load_of_flat hd hp h,
   fun _ _ _ _ hd hp hf => load_neither hd hp hf,
   fun _ _ _ h => load_none_of_no_dates h⟩

/-- Witness for c4_load_fallback: on the empty store neither layout
exists and load fails naming both locations; with no dates, load of the
latest date fails as well. -/
theorem c4_load_fallback_witness :
    ("2025-08-10" ≠ "") ∧
    existsAt FS.empty (snapshot_path ["b"] "ds" "2025-08-10") = false ∧
    existsAt FS.empty (snapshot_path_flat ["b"] "ds" "2025-08-10") = false ∧
    load FS.empty ["b"] "ds" (some "2025-08-10") =
      .error (.notFound "ds" "2025-08-10"
        (snapshot_path ["b"] "ds" "2025-08-10")
        (snapshot_path_flat ["b"] "ds" "2025-08-10")) ∧
    list_dates FS.empty ["b"] "ds" = [] ∧
    load FS.empty ["b"] "ds" none = .error (.noSnapshots "ds" ["b"]) :=
  ⟨by decide, rfl, rfl,
    c4_load_fallback.2.2.1 FS.empty ["b"] "ds" "2025-08-10"
      (by decide) rfl rfl,
    rfl,
    c4_load_fallback.2.2.2 FS.empty ["b"] "ds" rfl⟩

/-- C7 (confirmed): after a successful write_parquet_atomic into the
partition folder of (dataset, date) followed by write_text of the
manifest and of the "__SUCCESS" marker, load returns exactly the written
payload (same rows, same columns; parquet encoding is modelled as the
identity on payloads). -/
theorem c7_roundtrip (fs : FS) (base : List String) (ds d : String)
    (df : Df) (m : String) (hd : d ≠ "") :
    load (write_text (base ++ [ds, d]) "__SUCCESS" ""
        (write_text (base ++ [ds, d]) "manifest.json" m
          (write_parquet_atomic df (base ++ [ds, d]) none fs)))
      base ds (some d) = .ok df := by
  have hfind : findFile (writer_step (base ++ [ds, d]) df m fs)
      (snapshot_path base ds d) = some (.parquet df) := by
    rw [snapshot_path_eq, ← defaultParquetName_dest base ds d]
    exact findFile_writer_step_payload (base ++ [ds, d]) df m fs
  exact load_of_pref hd hfind

/-- Witness for c7_roundtrip at a concrete dataset, date and payload. -/
theorem c7_roundtrip_witness :
    ("2025-08-10" ≠ "") ∧
    load (write_text (["b"] ++ ["ds", "2025-08-10"]) "__SUCCESS" ""
        (write_text (["b"] ++ ["ds", "2025-08-10"]) "manifest.json" "{}"
          (write_parquet_atomic dfOne (["b"] ++ ["ds", "2025-08-10"])
            none FS.empty)))
      ["b"] "ds" (some "2025-08-10") = .ok dfOne :=
  ⟨by decide,
    c7_roundtrip FS.empty ["b"] "ds" "2025-08-10" dfOne "{}" (by decide)⟩

/-- C8 (confirmed): re-running the writer for an existing (dataset, date)
with a different payload fully replaces the payload, the manifest and the
marker; load then observes only the new payload, so no row of the
previous payload remains observable. -/
theorem c8_rerun_replaces (fs : FS) (base : List String) (ds d : String)
    (df1 df2 : Df) (m1 m2 : String) (hd : d ≠ "") :
    load (writer_step (base ++ [ds, d]) df2 m2
        (writer_step (base ++ [ds, d]) df1 m1 fs)) base ds (some d) =
      .ok df2 ∧
    findFile (writer_step (base ++ [ds, d]) df2 m2
        (writer_step (base ++ [ds, d]) df1 m1 fs))
      (manifest_path base ds d) = some (.text m2) ∧
    has_success_marker (writer_step (base ++ [ds, d]) df2 m2
        (writer_step (base ++ [ds, d]) df1 m1 fs)) (base ++ [ds, d]) =
      true ∧
    (df1 ≠ df2 →
      load (writer_step (base ++ [ds, d]) df2 m2
          (writer_step (base ++ [ds, d]) df1 m1 fs)) base ds (some d) ≠
        .ok df1) := by
  have hfind : findFile (writer_step (base ++ [ds, d]) df2 m2
      (writer_step (base ++ [ds, d]) df1 m1 fs))
      (snapshot_path base ds d) = some (.parquet df2) := by
    rw [snapshot_path_eq, ← defaultParquetName_dest base ds d]
    exact findFile_writer_step_payload (base ++ [ds, d]) df2 m2 _
  have hload := load_of_pref hd hfind
  refine ⟨hload, ?_, ?_, ?_⟩
  · rw [show manifest_path base ds d = (base ++ [ds, d]) ++
      ["manifest.json"] from by simp [manifest_path]]
    exact findFile_writer_step_manifest _ _ _ _
  · exact existsAt_of_findFile (findFile_writer_step_marker _ _ _ _)
  · intro hne hl
    rw [hload] at hl
    exact hne (Except.ok.inj hl).symm

/-- Witness for c8_rerun_replaces with two concrete different payloads. -/
theorem c8_rerun_replaces_witness :
    ("2025-08-10" ≠ "") ∧
    (load (writer_step (["b"] ++ ["ds", "2025-08-10"]) dfTwo "m2"
        (writer_step (["b"] ++ ["ds", "2025-08-10"]) dfOne "m1" FS.empty))
      ["b"] "ds" (some "2025-08-10") = .ok dfTwo ∧
    findFile (writer_step (["b"] ++ ["ds", "2025-08-10"]) dfTwo "m2"
        (writer_step (["b"] ++ ["ds", "2025-08-10"]) dfOne "m1" FS.empty))
      (manifest_path ["b"] "ds" "2025-08-10") = some (.text "m2") ∧
    has_success_marker (writer_step (["b"] ++ ["ds", "2025-08-10"]) dfTwo
        "m2" (writer_step (["b"] ++ ["ds", "2025-08-10"]) dfOne "m1"
          FS.empty)) (["b"] ++ ["ds", "2025-08-10"]) = true ∧
    (dfOne ≠ dfTwo →
      load (writer_step (["b"] ++ ["ds", "2025-08-10"]) dfTwo "m2"
          (writer_step (["b"] ++ ["ds", "2025-08-10"]) dfOne "m1"
            FS.empty)) ["b"] "ds" (some "2025-08-10") ≠ .ok dfOne)) :=
  ⟨by decide,
    c8_rerun_replaces FS.empty ["b"] "ds" "2025-08-10" dfOne dfTwo
      "m1" "m2" (by decide)⟩

theorem mem_discoveredDates {fs : FS} {root : List String} {x : String} :
    x ∈ discoveredDates fs root ↔
      ((∃ e ∈ fsChildren fs root,
          e.2 = true ∧ matchDateDir e.1 = true ∧ e.1 = x) ∨
       (∃ e ∈ fsChildren fs root,
          e.2 = false ∧ matchDateFile e.1 = some x)) := by
  simp only [discoveredDates, List.mem_append, List.mem_filterMap]
  constructor
  · rintro (⟨e, he, heq⟩ | ⟨e, he, heq⟩)
    · by_cases hc : (e.2 && matchDateDir e.1) = true
      · rw [if_pos hc] at heq
        have h12 : e.2 = true ∧ matchDateDir e.1 = true := by simpa using hc
        exact Or.inl ⟨e, he, h12.1, h12.2, Option.some.inj heq⟩
      · rw [if_neg hc] at heq
        exact absurd heq (by simp)
    · by_cases hc : e.2 = true
      · rw [if_pos hc] at heq
        exact absurd heq (by simp)
      · rw [if_neg hc] at heq
        exact Or.inr ⟨e, he, by simpa using hc, heq⟩
  · rintro (⟨e, he, h1, h2, hx⟩ | ⟨e, he, hb, hm⟩)
    · refine Or.inl ⟨e, he, ?_⟩
      rw [if_pos (by rw [h1, h2]; rfl), hx]
    · refine Or.inr ⟨e, he, ?_⟩
      rw [if_neg (by simp [hb]), hm]

/-- C6 (confirmed): list_dates of an absent dataset root is the empty
sequence; otherwise it contains exactly the names of child directories
matching the date pattern together with the capture groups of child file
names matching the date-file pattern, deduplicated (it is strictly
sorted, hence duplicate-free) and in ascending lexicographic order;
latest_date is the last element or none.  The spec's concrete example
(partitioned 2025-08-10 plus legacy flat 2025-08-09) evaluates as
stated. -/
theorem c6_list_dates :
    (∀ fs base ds, existsAt fs (dataset_dir base ds) = false →
      list_dates fs base ds = []) ∧
    (∀ fs base ds x, x ∈ list_dates fs base ds ↔
      (existsAt fs (dataset_dir base ds) = true ∧
        ((∃ e ∈ fsChildren fs (dataset_dir base ds),
            e.2 = true ∧ matchDateDir e.1 = true ∧ e.1 = x) ∨
         (∃ e ∈ fsChildren fs (dataset_dir base ds),
            e.2 = false ∧ matchDateFile e.1 = some x)))) ∧
    (∀ fs base ds, (list_dates fs base ds).Sorted (· < ·)) ∧
    (∀ fs base ds, latest_date fs base ds =
      (list_dates fs base ds).getLast?) ∧
    list_dates fsBoth ["data"] "licenses" =
      ["2025-08-09", "2025-08-10"] ∧
    latest_date fsBoth ["data"] "licenses" = some "2025-08-10" := by
  refine ⟨fun fs base ds h => list_dates_empty_of_absent h,
    fun fs base ds x => ?_,
    fun fs base ds => list_dates_sorted_lt fs base ds,
    fun _ _ _ => rfl, rfl, rfl⟩
  rw [mem_list_dates]
  exact and_congr_right fun _ => mem_discoveredDates

/-- Witness for c6_list_dates: the empty store has no dataset root, and
list_dates is empty there. -/
theorem c6_list_dates_witness :
    existsAt FS.empty (dataset_dir ["b"] "ds") = false ∧
    list_dates FS.empty ["b"] "ds" = [] :=
  ⟨rfl, c6_list_dates.1 FS.empty ["b"] "ds" rfl⟩

/-- C1 counterexample: an interrupted payload promote (folders created
and temporary object staged, promote not executed) leaves neither the
final payload object nor the marker, yet list_dates DOES include the
date, because write_parquet_atomic created the partition folder before
staging and the folder name matches the date pattern.  This refutes the
claim's "list_dates does not include that date". -/
theorem c1_counterexample :
    findFile fsC1 (snapshot_path ["data"] "enrollments" "2025-08-10") =
      none ∧
    findFile fsC1
      (snapshot_path_flat ["data"] "enrollments" "2025-08-10") = none ∧
    has_success_marker fsC1 ["data", "enrollments", "2025-08-10"] = false ∧
    findFile fsC1 (["data", "enrollments", "2025-08-10"] ++
      ["tmp", "2025-08-10.parquet"]) = some (.parquet dfOne) ∧
    list_dates fsC1 ["data"] "enrollments" = ["2025-08-10"] :=
  ⟨rfl, rfl, rfl, rfl, rfl⟩

theorem interrupted_stage_eq (dest : List String) (df : Df) (m : String) :
    run_ops ((writer_dataset_ops dest df m).take 2) FS.empty =
      ⟨[(dest ++ ["tmp", defaultParquetName dest], .parquet df)],
       [dest ++ ["tmp"]]⟩ := rfl

/-- C1 (amended): if the payload promote is interrupted so that only the
temporary object exists (no final payload object, no marker), then
list_dates DOES include that date — the partition folder created for the
temporary object matches the date-folder pattern — while load for that
date still fails with NotFound naming both attempted locations, and the
temporary object itself lies at neither location the reader consults. -/
theorem c1_interrupted_promote (base : List String) (ds d : String)
    (df : Df) (m : String) (h : matchDateDir d = true) :
    list_dates (run_ops ((writer_dataset_ops (base ++ [ds, d]) df m).take 2)
      FS.empty) base ds = [d] ∧
    load (run_ops ((writer_dataset_ops (base ++ [ds, d]) df m).take 2)
      FS.empty) base ds (some d) =
      .error (.notFound ds d (snapshot_path base ds d)
        (snapshot_path_flat base ds d)) ∧
    base ++ [ds, d, "tmp", d ++ ".parquet"] ≠ snapshot_path base ds d ∧
    base ++ [ds, d, "tmp", d ++ ".parquet"] ≠
      snapshot_path_flat base ds d := by
  have hd : d ≠ "" := matchDateDir_ne_empty h
  have hfn : ¬ ((d ++ ".parquet") = "tmp") := parquetAppend_ne_tmp d
  have hfnd : ¬ ((d ++ ".parquet") = d) :=
    ne_of_strLength_ne (by rw [parquetAppend_length]; omega)
  have hfs : run_ops ((writer_dataset_ops (base ++ [ds, d]) df m).take 2)
      FS.empty =
      ⟨[(base ++ [ds, d, "tmp", d ++ ".parquet"], .parquet df)],
       [base ++ [ds, d, "tmp"]]⟩ := by
    rw [interrupted_stage_eq, defaultParquetName_dest]
    congr 1 <;> simp
  have hne1 : base ++ [ds, d, "tmp", d ++ ".parquet"] ≠
      snapshot_path base ds d := by
    show base ++ [ds, d, "tmp", d ++ ".parquet"] ≠
      base ++ [ds, d, d ++ ".parquet"]
    exact append_ne_of_length (by simp)
  have hne2 : base ++ [ds, d, "tmp", d ++ ".parquet"] ≠
      snapshot_path_flat base ds d := by
    show base ++ [ds, d, "tmp", d ++ ".parquet"] ≠
      base ++ [ds, d ++ ".parquet"]
    exact append_ne_of_length (by simp)
  have hpl1 : pathLeq (snapshot_path base ds d)
      (base ++ [ds, d, "tmp"]) = false := by
    rw [snapshot_path_eq,
      show base ++ [ds, d, "tmp"] = (base ++ [ds, d]) ++ ["tmp"] from
        by simp,
      pathLeq_append]
    simp [pathLeq, hfn]
  have hpl2 : pathLeq (snapshot_path base ds d)
      (base ++ [ds, d, "tmp", d ++ ".parquet"]) = false := by
    rw [snapshot_path_eq,
      show base ++ [ds, d, "tmp", d ++ ".parquet"] =
        (base ++ [ds, d]) ++ ["tmp", d ++ ".parquet"] from by simp,
      pathLeq_append]
    simp [pathLeq, hfn]
  have hpl3 : pathLeq (snapshot_path_flat base ds d)
      (base ++ [ds, d, "tmp"]) = false := by
    rw [show snapshot_path_flat base ds d =
        (base ++ [ds]) ++ [d ++ ".parquet"] from by simp [snapshot_path_flat],
      show base ++ [ds, d, "tmp"] = (base ++ [ds]) ++ [d, "tmp"] from
        by simp,
      pathLeq_append]
    simp [pathLeq, hfnd]
  have hpl4 : pathLeq (snapshot_path_flat base ds d)
      (base ++ [ds, d, "tmp", d ++ ".parquet"]) = false := by
    rw [show snapshot_path_flat base ds d =
        (base ++ [ds]) ++ [d ++ ".parquet"] from by simp [snapshot_path_flat],
      show base ++ [ds, d, "tmp", d ++ ".parquet"] =
        (base ++ [ds]) ++ [d, "tmp", d ++ ".parquet"] from by simp,
      pathLeq_append]
    simp [pathLeq, hfnd]
  have hpref : existsAt
      (⟨[(base ++ [ds, d, "tmp", d ++ ".parquet"], .parquet df)],
        [base ++ [ds, d, "tmp"]]⟩ : FS) (snapshot_path base ds d) =
      false := by
    simp [existsAt, fileExistsAt, findFile, lookupFileList, isDirAt,
      hne1, hpl1, hpl2]
  have hflat : existsAt
      (⟨[(base ++ [ds, d, "tmp", d ++ ".parquet"], .parquet df)],
        [base ++ [ds, d, "tmp"]]⟩ : FS)
      (snapshot_path_flat base ds d) = false := by
    simp [existsAt, fileExistsAt, findFile, lookupFileList, isDirAt,
      hne2, hpl3, hpl4]
  have hex : existsAt
      (⟨[(base ++ [ds, d, "tmp", d ++ ".parquet"], .parquet df)],
        [base ++ [ds, d, "tmp"]]⟩ : FS) (dataset_dir base ds) = true := by
    have hleq : pathLeq (base ++ [ds]) (base ++ [ds, d, "tmp"]) = true := by
      have h0 := pathLeq_self_append (base ++ [ds]) [d, "tmp"]
      simpa using h0
    simp [existsAt, isDirAt, dataset_dir, hleq]
  have hstrip1 : stripSegs (base ++ [ds])
      (base ++ [ds, d, "tmp", d ++ ".parquet"]) =
      some [d, "tmp", d ++ ".parquet"] := by
    have h0 := stripSegs_append (base ++ [ds]) [d, "tmp", d ++ ".parquet"]
    simpa using h0
  have hstrip2 : stripSegs (base ++ [ds]) (base ++ [ds, d, "tmp"]) =
      some [d, "tmp"] := by
    have h0 := stripSegs_append (base ++ [ds]) [d, "tmp"]
    simpa using h0
  have hch : fsChildren
      (⟨[(base ++ [ds, d, "tmp", d ++ ".parquet"], .parquet df)],
        [base ++ [ds, d, "tmp"]]⟩ : FS) (dataset_dir base ds) =
      [(d, true), (d, true)] := by
    simp [fsChildren, dataset_dir, childEntry, hstrip1, hstrip2]
  have hdisc : discoveredDates
      (⟨[(base ++ [ds, d, "tmp", d ++ ".parquet"], .parquet df)],
        [base ++ [ds, d, "tmp"]]⟩ : FS) (dataset_dir base ds) =
      [d, d] := by
    simp [discoveredDates, hch, h]
  have hld : list_dates
      (⟨[(base ++ [ds, d, "tmp", d ++ ".parquet"], .parquet df)],
        [base ++ [ds, d, "tmp"]]⟩ : FS) base ds = [d] := by
    simp [list_dates, hex, hdisc]
  rw [hfs]
  exact ⟨hld, load_neither hd hpref hflat, hne1, hne2⟩

/-- Witness for c1_interrupted_promote at a concrete dataset and date. -/
theorem c1_interrupted_promote_witness :
    matchDateDir "2025-08-10" = true ∧
    list_dates (run_ops ((writer_dataset_ops
        (["data"] ++ ["enrollments", "2025-08-10"]) dfOne "{}").take 2)
      FS.empty) ["data"] "enrollments" = ["2025-08-10"] ∧
    load (run_ops ((writer_dataset_ops
        (["data"] ++ ["enrollments", "2025-08-10"]) dfOne "{}").take 2)
      FS.empty) ["data"] "enrollments" (some "2025-08-10") =
      .error (.notFound "enrollments" "2025-08-10"
        (snapshot_path ["data"] "enrollments" "2025-08-10")
        (snapshot_path_flat ["data"] "enrollments" "2025-08-10")) :=
  ⟨by decide,
    (c1_interrupted_promote ["data"] "enrollments" "2025-08-10" dfOne "{}"
      (by decide)).1,
    (c1_interrupted_promote ["data"] "enrollments" "2025-08-10" dfOne "{}"
      (by decide)).2.1⟩
